import Mathlib

/-!
Verification of the LunarLander control policy
(`src/lunar_lander_agent.py`, class `LunarLanderAgent`).

The decision core `get_action` is embedded shallowly:
numeric state fields are rational numbers, the `np.sin` library call is an
abstract function parameter, the `env_config['continuous']` lookup is
modelled over Python values with Python truthiness, and the environment
allocation performed on every call (lines 79-80 of the source) is recorded
as an explicit effect trace.
-/

namespace LunarLander

/-- A Python value as it may appear in the `env_config` dictionary under the
key `continuous` (line 83 of the source dispatches on its truthiness). -/
inductive PyVal where
  | pyBool (b : Bool)
  | pyInt (n : ℤ)
  | pyFloat (q : ℚ)
  | pyStr (s : String)
  | pyNone
deriving DecidableEq

/-- Python truthiness, as used by `if self.env_config['continuous']:`. -/
def truthy : PyVal → Bool
  | PyVal.pyBool b => b
  | PyVal.pyInt n => n != 0
  | PyVal.pyFloat q => q != 0
  | PyVal.pyStr s => s != ""
  | PyVal.pyNone => false

/-- The 8-element observation vector of the lander, with the positional
semantics of line 62 of the source (`x, y, xv, yv, theta, omega`)
and the two ground-contact flags `observation[6]`, `observation[7]`. -/
structure StateVector where
  x : ℚ
  y : ℚ
  xv : ℚ
  yv : ℚ
  theta : ℚ
  omega : ℚ
  leftContact : Bool
  rightContact : Bool
deriving DecidableEq

/-- Main-thrust channel of the raw command (lines 64, 68-71 of the source):
initialised to `0`; while not landed (`observation[6] == False or
observation[7] == False`) and descending (`yv < 0`) it is set to
`np.abs(yv) - (y/7 if y > 0.10 else -0.10)`. -/
def yBooster (s : StateVector) : ℚ :=
  if s.leftContact = false ∨ s.rightContact = false then
    if s.yv < 0 then |s.yv| - (if s.y > 0.10 then s.y / 7 else -0.10) else 0
  else 0

/-- Lateral channel of the raw command (lines 73 and 76 of the source):
`np.sin(theta)*2.5 + omega*2.5` minus `x*3 + xv*4`. The `np.sin` call is
passed in as the abstract function `sin`. -/
def xBooster (sin : ℚ → ℚ) (s : StateVector) : ℚ :=
  sin s.theta * 2.5 + s.omega * 2.5 - (s.x * 3 + s.xv * 4)

/-- Discrete-mode quantization of the raw command (lines 87-98 of the
source), given `action[0] = yB`, `action[1] = xB` and the state fields
`y`, `yv`; returns the gym discrete action code. -/
def discrete_action (yB xB y yv : ℚ) : ℕ :=
  if yB > |xB| then 2
  else if y < 0.05 then (if yv < -0.1 then 2 else 0)
  else if xB < -0.5 then 1
  else if xB > 0.5 then 3
  else if yv > -0.08 ∧ y > 0.15 then 0
  else if yv < -0.1 then 2 else 0

/-- The action returned by `get_action`: in continuous mode the raw pair
`np.array([yBooster, xBooster])`, in discrete mode an integer code. -/
inductive Action where
  | continuous (yB xB : ℚ)
  | discrete (a : ℕ)
deriving DecidableEq

/-- Outcome of a `get_action` call: a returned action, or the `KeyError`
raised by `self.env_config['continuous']` when the key is absent. -/
inductive PyResult where
  | ok (a : Action)
  | keyError
deriving DecidableEq

/-- The decision computation of `get_action` (lines 62-98 of the source):
compute the raw command, then dispatch on the truthiness of the
`continuous` entry of `env_config` (`cfgContinuous`; absent key raises
`KeyError`). -/
def get_action (sin : ℚ → ℚ) (cfgContinuous : Option PyVal) (s : StateVector) : PyResult :=
  match cfgContinuous with
  | Option.none => PyResult.keyError
  | Option.some v =>
    if truthy v then
      PyResult.ok (Action.continuous (yBooster s) (xBooster sin s))
    else
      PyResult.ok (Action.discrete (discrete_action (yBooster s) (xBooster sin s) s.y s.yv))

/-- External-resource effects, for the effect trace of a `get_action` call. -/
inductive Effect where
  | makeEnv
  | closeEnv
deriving DecidableEq

/-- The effect trace of every `get_action` call: lines 79-80 of the source
run `env = self.make_env()` (which calls `gym.make`, allocating a simulator
environment) and then `env.close()`, unconditionally, before the action is
returned. -/
def get_action_effects : List Effect := [Effect.makeEnv, Effect.closeEnv]

/-- `get_action` viewed with the agent's configuration threaded through the
call: the method reads `self.env_config` but never assigns to `self`, so the
configuration after the call is the configuration before it. -/
def get_action_stateful (sin : ℚ → ℚ) (cfg : Option PyVal) (s : StateVector) :
    PyResult × Option PyVal :=
  (get_action sin cfg s, cfg)

/-- Zero state: all kinematic fields `0`, both contact flags `false`. -/
def sZero : StateVector :=
  { x := 0, y := 0, xv := 0, yv := 0, theta := 0, omega := 0,
    leftContact := false, rightContact := false }

/-- A near-ground, gently sinking state (`y = 0.03`, `yv = -0.05`). -/
def sNearGround : StateVector :=
  { x := 0, y := 0.03, xv := 0, yv := -0.05, theta := 0, omega := 0,
    leftContact := false, rightContact := false }

/-- A high state drifting right (`x = 0.2`, `y = 0.5`, `yv = -0.05`). -/
def sDrift : StateVector :=
  { x := 0.2, y := 0.5, xv := 0, yv := -0.05, theta := 0, omega := 0,
    leftContact := false, rightContact := false }

/-- A landed state still sinking fast (`y = 0.03`, `yv = -0.2`, both legs
in contact). -/
def sLanded : StateVector :=
  { x := 0, y := 0.03, xv := 0, yv := -0.2, theta := 0, omega := 0,
    leftContact := true, rightContact := true }

end LunarLander

namespace LunarLander

/-- C1: for every state vector, `yBooster` equals
`|yv| - (y/7 if y > 0.10 else -0.10)` exactly when at least one contact
flag is false and `yv < 0`, and equals `0` otherwise (both legs in contact,
or `yv >= 0`); and the same `yBooster` value is the one used in both
action-space modes. -/
theorem C1_yBooster_formula (sin : ℚ → ℚ) (s : StateVector) :
    yBooster s =
      (if (s.leftContact = false ∨ s.rightContact = false) ∧ s.yv < 0 then
        |s.yv| - (if s.y > 0.10 then s.y / 7 else -0.10)
      else 0)
    ∧ get_action sin (Option.some (PyVal.pyBool true)) s
        = PyResult.ok (Action.continuous (yBooster s) (xBooster sin s))
    ∧ get_action sin (Option.some (PyVal.pyBool false)) s
        = PyResult.ok (Action.discrete
            (discrete_action (yBooster s) (xBooster sin s) s.y s.yv)) := by
  refine ⟨?_, rfl, rfl⟩
  unfold yBooster
  by_cases h1 : s.leftContact = false ∨ s.rightContact = false <;>
    by_cases h2 : s.yv < 0 <;> simp [h1, h2]

/-- C2: for every state vector, `xBooster` equals
`sin(theta)*2.5 + omega*2.5 - (x*3 + xv*4)`, and its value does not depend
on the contact flags (hence not on the landed state). -/
theorem C2_xBooster_formula (sin : ℚ → ℚ) (s : StateVector) (lc rc : Bool) :
    xBooster sin s = sin s.theta * 2.5 + s.omega * 2.5 - (s.x * 3 + s.xv * 4)
    ∧ xBooster sin { s with leftContact := lc, rightContact := rc }
        = xBooster sin s := ⟨rfl, rfl⟩

/-- C3: in discrete mode, whenever the raw command satisfies
`yBooster > |xBooster|`, the returned action is `FIRE_MAIN` (2),
for every state vector (hence regardless of `y`, `yv` and the contact
flags, and with priority over the near-ground rule). -/
theorem C3_vertical_dominance (sin : ℚ → ℚ) (s : StateVector)
    (h : yBooster s > |xBooster sin s|) :
    get_action sin (Option.some (PyVal.pyBool false)) s
      = PyResult.ok (Action.discrete 2) := by
  have hd : discrete_action (yBooster s) (xBooster sin s) s.y s.yv = 2 := by
    unfold discrete_action
    rw [if_pos h]
  simp [get_action, truthy, hd]

/-- Witness for C3: the near-ground state `sNearGround` has `y = 0.03 < 0.05`
and `yv = -0.05 >= -0.1`, so the near-ground rule alone would coast, yet
`yBooster = 0.15 > 0 = |xBooster|` forces `FIRE_MAIN`. -/
theorem C3_vertical_dominance_witness :
    get_action (fun _ => 0) (Option.some (PyVal.pyBool false)) sNearGround
      = PyResult.ok (Action.discrete 2) :=
  C3_vertical_dominance (fun _ => 0) sNearGround
    (by norm_num [yBooster, xBooster, sNearGround, abs_of_nonpos, abs_of_nonneg])

/-- C4: in discrete mode, whenever `yBooster <= |xBooster|`, the action
follows the remaining decision tree: near ground (`y < 0.05`) fire main
iff `yv < -0.1` else coast; otherwise fire left if `xBooster < -0.5`,
fire right if `xBooster > 0.5`, else coast when `yv > -0.08` and
`y > 0.15`, else fire main iff `yv < -0.1` else coast. -/
theorem C4_discrete_tree (sin : ℚ → ℚ) (s : StateVector)
    (h : yBooster s ≤ |xBooster sin s|) :
    get_action sin (Option.some (PyVal.pyBool false)) s
      = PyResult.ok (Action.discrete (
        if s.y < 0.05 then (if s.yv < -0.1 then 2 else 0)
        else if xBooster sin s < -0.5 then 1
        else if xBooster sin s > 0.5 then 3
        else if s.yv > -0.08 ∧ s.y > 0.15 then 0
        else if s.yv < -0.1 then 2 else 0)) := by
  have h1 : ¬ (yBooster s > |xBooster sin s|) := not_lt.mpr h
  have hd : discrete_action (yBooster s) (xBooster sin s) s.y s.yv
      = (if s.y < 0.05 then (if s.yv < -0.1 then 2 else 0)
        else if xBooster sin s < -0.5 then 1
        else if xBooster sin s > 0.5 then 3
        else if s.yv > -0.08 ∧ s.y > 0.15 then 0
        else if s.yv < -0.1 then 2 else 0) := by
    unfold discrete_action
    rw [if_neg h1]
  simp [get_action, truthy, hd]

/-- Witness for C4: the drifting state `sDrift` has
`yBooster = -3/140 <= 0.6 = |xBooster|`, `y = 0.5 >= 0.05` and
`xBooster = -0.6 < -0.5`, so the action is `FIRE_LEFT` (1). -/
theorem C4_discrete_tree_witness :
    get_action (fun _ => 0) (Option.some (PyVal.pyBool false)) sDrift
      = PyResult.ok (Action.discrete 1) := by
  rw [C4_discrete_tree (fun _ => 0) sDrift
    (by norm_num [yBooster, xBooster, sDrift, abs_of_nonpos, abs_of_nonneg])]
  norm_num [sDrift, xBooster]

/-- C5: the claim says `get_action` neither allocates nor queries a
simulator, but lines 79-80 of the source run `env = self.make_env()`
(which calls `gym.make`, allocating a simulator environment) and
`env.close()` on every call: the effect trace of the call is non-empty and
contains the environment allocation. -/
theorem C5_get_action_allocates_env :
    get_action_effects ≠ [] ∧ Effect.makeEnv ∈ get_action_effects := by
  refine ⟨?_, ?_⟩ <;> decide

/-- Counterexample for C6: the configuration value `"discrete"` (a string)
is not one of the two valid modes, yet `get_action` raises no
invalid-configuration error: being a non-empty string it is truthy, so the
call silently returns the continuous-mode action. -/
theorem C6_counterexample :
    truthy (PyVal.pyStr "discrete") = true
    ∧ get_action (fun _ => 0) (Option.some (PyVal.pyStr "discrete")) sZero
        = PyResult.ok (Action.continuous (yBooster sZero) (xBooster (fun _ => 0) sZero)) :=
  ⟨rfl, rfl⟩

/-- C6 (amended): `get_action` performs no validation of the mode against
a closed set; it dispatches on the Python truthiness of the `continuous`
configuration entry — any truthy value (of any type) selects continuous
mode and any falsy value selects discrete mode — and the only failure is
the `KeyError` raised when the `continuous` key is absent. -/
theorem C6_truthiness_dispatch (sin : ℚ → ℚ) (v : PyVal) (s : StateVector) :
    get_action sin (Option.some v) s
      = PyResult.ok (
          if truthy v then Action.continuous (yBooster s) (xBooster sin s)
          else Action.discrete
            (discrete_action (yBooster s) (xBooster sin s) s.y s.yv))
    ∧ get_action sin Option.none s = PyResult.keyError := by
  refine ⟨?_, rfl⟩
  cases hv : truthy v <;> simp [get_action, hv]

/-- C7: the decision computation is total and well-formed: in continuous
mode it returns exactly the unclamped raw pair `(yBooster, xBooster)`, and
in discrete mode it returns an integer code in `{0, 1, 2, 3}`; no error
is reachable once the mode flag is present. -/
theorem C7_total_wellformed (sin : ℚ → ℚ) (s : StateVector) :
    get_action sin (Option.some (PyVal.pyBool true)) s
      = PyResult.ok (Action.continuous (yBooster s) (xBooster sin s))
    ∧ (∃ n, get_action sin (Option.some (PyVal.pyBool false)) s
        = PyResult.ok (Action.discrete n)
        ∧ (n = 0 ∨ n = 1 ∨ n = 2 ∨ n = 3)) := by
  refine ⟨rfl, discrete_action (yBooster s) (xBooster sin s) s.y s.yv, rfl, ?_⟩
  unfold discrete_action
  split_ifs <;> simp

/-- C8: the decision is deterministic and stateless across calls: the
agent configuration after a call equals the configuration before it, and a
second invocation on the same state vector (with the configuration left by
the first call) yields an identical result. -/
theorem C8_deterministic_stateless (sin : ℚ → ℚ) (cfg : Option PyVal)
    (s : StateVector) :
    (get_action_stateful sin cfg s).2 = cfg
    ∧ get_action_stateful sin ((get_action_stateful sin cfg s).2) s
        = get_action_stateful sin cfg s := ⟨rfl, rfl⟩

/-- C9: in discrete mode, whenever the returned action is `NOOP` (0), the
vertical velocity satisfies `yv >= -0.1`: the policy never coasts while
descending faster than 0.1. -/
theorem C9_noop_implies_slow_descent (sin : ℚ → ℚ) (s : StateVector)
    (h : get_action sin (Option.some (PyVal.pyBool false)) s
      = PyResult.ok (Action.discrete 0)) :
    s.yv ≥ -0.1 := by
  have h0 : discrete_action (yBooster s) (xBooster sin s) s.y s.yv = 0 := by
    simpa [get_action, truthy] using h
  unfold discrete_action at h0
  split_ifs at h0 with h1 h2 h3 h4 h5 h6 h7 <;>
    first
    | exact absurd h0 (by decide)
    | linarith [not_lt.mp h3]
    | linarith [h6.1]
    | linarith [not_lt.mp h7]

/-- Witness for C9: on the zero state the discrete action is `NOOP`, and
indeed its vertical velocity `0` is at least `-0.1`. -/
theorem C9_noop_implies_slow_descent_witness : sZero.yv ≥ -0.1 :=
  C9_noop_implies_slow_descent (fun _ => 0) sZero
    (by norm_num [get_action, truthy, discrete_action, yBooster, xBooster, sZero])

/-- C10: in discrete mode, if both legs are in contact (vehicle landed),
the returned action is `FIRE_MAIN` (2) only when the vehicle is still
sinking faster than 0.1 (`yv < -0.1`). -/
theorem C10_landed_main_only_if_sinking (sin : ℚ → ℚ) (s : StateVector)
    (hl : s.leftContact = true) (hr : s.rightContact = true)
    (h : get_action sin (Option.some (PyVal.pyBool false)) s
      = PyResult.ok (Action.discrete 2)) :
    s.yv < -0.1 := by
  have hy : yBooster s = 0 := by simp [yBooster, hl, hr]
  have h0 : discrete_action (yBooster s) (xBooster sin s) s.y s.yv = 2 := by
    simpa [get_action, truthy] using h
  rw [hy] at h0
  unfold discrete_action at h0
  rw [if_neg (not_lt.mpr (abs_nonneg (xBooster sin s)))] at h0
  split_ifs at h0 with h2 h3 h4 h5 h6 h7 <;>
    first
    | exact absurd h0 (by decide)
    | assumption

/-- Witness for C10: on the landed, fast-sinking state `sLanded` the
discrete action is `FIRE_MAIN`, and indeed `yv = -0.2 < -0.1`. -/
theorem C10_landed_main_only_if_sinking_witness : sLanded.yv < -0.1 :=
  C10_landed_main_only_if_sinking (fun _ => 0) sLanded rfl rfl
    (by norm_num [get_action, truthy, discrete_action, yBooster, xBooster, sLanded])

end LunarLander
